import Mathlib

/-!
Verification of `gen-pair-airtable` (src/src/lib.rs): a batch pipeline that
splits text into chunks, asks an LLM completion service for Q&A pairs per
chunk, parses the JSON payload, and uploads each pair to an external table.

The Rust functions are shallowly embedded as Lean functions.  External
effects (message builders, the completion service, JSON syntax parsing,
uploads) are supplied through an `Oracle` of outcomes; the control flow of
`gen_pair` and the `handler` loop is translated from the source.  Strings
are handled through their character lists so that everything reduces in
the kernel.
-/

namespace GenPair

/-- Unicode White_Space test, as Rust's `char::is_whitespace` used by
`str::trim` in `split_text_into_chunks`. -/
def rustIsWhitespace (c : Char) : Bool :=
  let n := c.toNat
  (0x09 ≤ n && n ≤ 0x0D) || n = 0x20 || n = 0x85 || n = 0xA0 || n = 0x1680 ||
  (0x2000 ≤ n && n ≤ 0x200A) || n = 0x2028 || n = 0x2029 || n = 0x202F ||
  n = 0x205F || n = 0x3000

/-- `line.trim().is_empty()` in Rust: every character is whitespace
(vacuously true for the empty line). -/
def isBlank (l : List Char) : Bool :=
  l.all rustIsWhitespace

/-- String version of `isBlank`. -/
def isBlankS (s : String) : Bool :=
  isBlank s.data

/-- Split a character list at every newline, keeping empty segments
(the raw splitting underlying Rust's `str::lines`). -/
def splitNl : List Char → List (List Char)
  | [] => [[]]
  | c :: rest =>
    if c = '\n' then [] :: splitNl rest
    else
      match splitNl rest with
      | [] => [[c]]
      | l :: ls => (c :: l) :: ls

/-- Remove one trailing carriage return, as Rust's `str::lines` does per
line. -/
def stripCr (l : List Char) : List Char :=
  if l.getLast? = some '\r' then l.dropLast else l

/-- Rust's `str::lines` on a character list: split at `\n`, drop the empty
segment produced by a final line terminator, strip one trailing `\r` from
each line. -/
def rustLines (cs : List Char) : List (List Char) :=
  let segs := splitNl cs
  let segs := if segs.getLast? = some [] then segs.dropLast else segs
  segs.map stripCr

/-- One iteration of the `for line in raw_text.lines()` loop of
`split_text_into_chunks`: append a non-blank line (plus `\n`) to the
current section; then, on a blank line, flush a non-blank current
section. -/
def chunkStep (acc : List (List Char) × List Char) (line : List Char) :
    List (List Char) × List Char :=
  let res := acc.1
  let cur := if !isBlank line then acc.2 ++ line ++ ['\n'] else acc.2
  if isBlank line && !isBlank cur then (res ++ [cur], []) else (res, cur)

/-- The chunker loop over an explicit line list, returning the final
`(res, current_section)` pair. -/
def chunkLines (ls : List (List Char)) : List (List Char) × List Char :=
  ls.foldl chunkStep ([], [])

/-- `split_text_into_chunks` from src/src/lib.rs: scan lines, accumulate
non-blank lines into a section, flush the section on each blank line; the
final `current_section` is never flushed. -/
def split_text_into_chunks (raw_text : String) : List String :=
  ((rustLines raw_text.data).foldl chunkStep ([], [])).1.map String.mk

/-- The `QaPair` struct deserialized inside `gen_pair`. -/
structure QaPair where
  question : String
  answer : String
deriving DecidableEq

/-- JSON values, the shape `serde_json` parses payloads into. -/
inductive Json where
  | null
  | bool (b : Bool)
  | num (n : Int)
  | str (s : String)
  | arr (elems : List Json)
  | obj (fields : List (String × Json))

/-- Extract a named string field of a JSON object as serde's derived
deserializer does: the field must occur exactly once (a duplicate or a
missing field is an error) and hold a string; unknown fields are
ignored. -/
def getStrField (fields : List (String × Json)) (name : String) : Option String :=
  match fields.filter (fun f => f.1 = name) with
  | [(_, Json.str s)] => some s
  | _ => none

/-- Deserialize one `QaPair` (`{question, answer}` object). -/
def decodeQaPair : Json → Option QaPair
  | .obj fields =>
    match getStrField fields "question", getStrField fields "answer" with
    | some q, some a => some ⟨q, a⟩
    | _, _ => none
  | _ => none

/-- Deserialize a `Vec<QaPair>` (a JSON array of pair objects). -/
def decodeQaList : Json → Option (List QaPair)
  | .arr es => es.mapM decodeQaPair
  | _ => none

/-- Deserialize a `HashMap<String, Vec<QaPair>>`: the payload must be a
JSON object and every value must be a list of pair objects. -/
def decodeQaMap : Json → Option (List (String × List QaPair))
  | .obj fields => fields.mapM (fun f => (decodeQaList f.2).map (fun l => (f.1, l)))
  | _ => none

/-- `HashMap::get` on the deserialized map; with duplicate JSON keys the
later insertion wins, as with `HashMap::insert`. -/
def hashMapGet (m : List (String × List QaPair)) (k : String) : Option (List QaPair) :=
  m.foldl (fun acc f => if f.1 = k then some f.2 else acc) none

/-- The `message` of a completion choice; its `content` is optional. -/
structure ChatMessage where
  content : Option String

/-- One choice of a completion response. -/
structure ChatChoice where
  message : ChatMessage

/-- A completion response: a list of choices. -/
structure ChatResponse where
  choices : List ChatChoice

/-- Outcomes of the external effects `gen_pair` performs, supplied as an
oracle: the `SYS_PROMPT` environment lookup, whether each builder call
succeeds, the completion-service result (`none` models `Err`), the JSON
syntax parse of a payload string, and whether `create_record` fails for a
given pair (its result is discarded by the source). -/
structure Oracle where
  sysPromptEnv : Option String
  sysMsgBuildOk : Bool
  userMsgBuildOk : Bool
  reqBuildOk : Bool
  chatResult : Option ChatResponse
  parseJson : String → Option Json
  uploadFails : String → String → Bool

/-- Result of one `gen_pair` call: `ok v` models
`Ok(v) : Result<Option<Vec<(String, String)>>, _>`, `err` models `Err(_)`,
and `panicked msg` models a Rust panic. -/
inductive GenResult where
  | ok (v : Option (List (String × String)))
  | err
  | panicked (msg : String)
deriving DecidableEq

/-- `gen_pair` from src/src/lib.rs: build the system message (`expect`:
panic on failure), the user message and the request (`?`: error result on
failure), call the completion service (service error becomes `Ok(None)`),
index choice 0 (panic when empty), fall through on absent content
(returning `Ok(Some([]))`), decode the payload (decode error becomes
`Ok(None)`), and map the `qa_pairs` entries in order. -/
def gen_pair (o : Oracle) (user_input : String) : GenResult :=
  if !o.sysMsgBuildOk then .panicked "Failed to build system message"
  else if !o.userMsgBuildOk then .err
  else if !o.reqBuildOk then .err
  else
    match o.chatResult with
    | none => .ok none
    | some chat =>
      match chat.choices with
      | [] => .panicked "index out of bounds"
      | choice :: _ =>
        match choice.message.content with
        | none => .ok (some [])
        | some payload =>
          match (o.parseJson payload).bind decodeQaMap with
          | none => .ok none
          | some m =>
            match hashMapGet m "qa_pairs" with
            | none => .ok (some [])
            | some qas => .ok (some (qas.map (fun qa => (qa.question, qa.answer))))

/-- The mutable state of the `handler` loop: the pair counter `count`,
the chunk counter `chunk_count`, and the number of progress log lines
emitted. -/
structure DriverState where
  count : Nat
  chunk_count : Nat
  progressLogs : Nat
deriving DecidableEq

/-- The `handler` loop over the per-chunk `gen_pair` results:
`chunk_count` is incremented first; `Ok(Some(pairs))` adds the number of
pairs to `count`, `Ok(None)` and `Err` only log; each non-panicking
iteration ends with a progress log line; a panic aborts the loop
(`inr` carries the state at the panic). -/
def runHandler : List GenResult → DriverState → DriverState ⊕ (DriverState × String)
  | [], st => .inl st
  | r :: rs, st =>
    let st1 : DriverState := { st with chunk_count := st.chunk_count + 1 }
    match r with
    | .ok (some pairs) =>
        runHandler rs { st1 with count := st1.count + pairs.length,
                                 progressLogs := st1.progressLogs + 1 }
    | .ok none => runHandler rs { st1 with progressLogs := st1.progressLogs + 1 }
    | .err => runHandler rs { st1 with progressLogs := st1.progressLogs + 1 }
    | .panicked msg => .inr (st1, msg)

/-- The `handler` entry point on a chunk list, given one oracle of
external outcomes per chunk, starting from zeroed counters. -/
def handler (os : List Oracle) (chunks : List String) : DriverState ⊕ (DriverState × String) :=
  runHandler (List.zipWith gen_pair os chunks) ⟨0, 0, 0⟩

/-- Number of pairs a `gen_pair` result contributes to the counter. -/
def pairCount : GenResult → Nat
  | .ok (some pairs) => pairs.length
  | _ => 0

/-- Whether a `gen_pair` result is a panic. -/
def isPanic : GenResult → Bool
  | .panicked _ => true
  | _ => false

/-- `{:02}` formatting of a small natural number. -/
def pad2 (n : Nat) : String :=
  if n < 10 then "0" ++ toString n else toString n

/-- `get_cron_time_with_date` from src/src/lib.rs, as a function of the
local time's minute, hour, day and month at deployment: the rendered
fields are minute + 2, hour, day-of-month, month, and a `*`
day-of-week. -/
def get_cron_time_with_date (minute hour day month : Nat) : String :=
  pad2 (minute + 2) ++ " " ++ pad2 hour ++ " " ++ pad2 day ++ " " ++ pad2 month ++ " " ++ "*"

/-- One field of a cron schedule: a wildcard or a fixed value. -/
inductive CronField where
  | star
  | num (n : Nat)
deriving DecidableEq

/-- A five-field cron schedule: minute, hour, day-of-month, month,
day-of-week. -/
structure CronSpec where
  minute : CronField
  hour : CronField
  dom : CronField
  month : CronField
  dow : CronField
deriving DecidableEq

/-- A calendar instant as cron sees it. -/
structure CronTime where
  minute : Nat
  hour : Nat
  dom : Nat
  month : Nat
  dow : Nat

/-- Render one cron field the way the source's format string does. -/
def renderCronField : CronField → String
  | .star => "*"
  | .num n => pad2 n

/-- Render a cron schedule as the space-separated five-field string. -/
def renderCronSpec (s : CronSpec) : String :=
  renderCronField s.minute ++ " " ++ renderCronField s.hour ++ " " ++
  renderCronField s.dom ++ " " ++ renderCronField s.month ++ " " ++ renderCronField s.dow

/-- The structured form of the schedule `get_cron_time_with_date`
renders. -/
def cron_spec_of (minute hour day month : Nat) : CronSpec :=
  ⟨.num (minute + 2), .num hour, .num day, .num month, .star⟩

/-- Whether one cron field accepts a value. -/
def fieldMatches : CronField → Nat → Bool
  | .star, _ => true
  | .num n, m => n = m

/-- Modelled from the spec: the external scheduler (`schedule_cron_job`)
is not part of src/; standard cron semantics are assumed — a schedule
fires at an instant exactly when every field matches (`*` matches every
value). -/
def cronMatches (s : CronSpec) (t : CronTime) : Bool :=
  fieldMatches s.minute t.minute && fieldMatches s.hour t.hour &&
  fieldMatches s.dom t.dom && fieldMatches s.month t.month &&
  fieldMatches s.dow t.dow

/-- The schedule fires at some instant of the given calendar day. -/
def firesOnDay (s : CronSpec) (d mo : Nat) : Prop :=
  ∃ mi < 60, ∃ h < 24, ∃ dw < 7, cronMatches s ⟨mi, h, d, mo, dw⟩ = true

instance decFiresOnDay (s : CronSpec) (d mo : Nat) : Decidable (firesOnDay s d mo) := by
  unfold firesOnDay
  infer_instance

/-- A concrete oracle whose system-message build fails. -/
def oracleSysFail : Oracle :=
  ⟨none, false, true, true, none, fun _ => none, fun _ _ => false⟩

/-- A concrete oracle whose user-message build fails. -/
def oracleUserFail : Oracle :=
  ⟨none, true, false, true, none, fun _ => none, fun _ _ => false⟩

/-- A concrete oracle whose completion-service call fails. -/
def oracleServiceFail : Oracle :=
  ⟨none, true, true, true, none, fun _ => none, fun _ _ => false⟩

/-- A concrete oracle whose completion response has no choices. -/
def oracleEmptyChoices : Oracle :=
  ⟨none, true, true, true, some ⟨[]⟩, fun _ => none, fun _ _ => false⟩

/-- A concrete oracle whose first choice has absent message content. -/
def oracleNoContent : Oracle :=
  ⟨none, true, true, true, some ⟨[⟨⟨none⟩⟩]⟩, fun _ => none, fun _ _ => false⟩

/-- The JSON value of the payload `{"other_key":[]}`. -/
def jsonOtherKey : Json := .obj [("other_key", .arr [])]

/-- A concrete oracle returning a payload that decodes to
`{"other_key":[]}`: well-formed, but without a `qa_pairs` key. -/
def oracleOtherKey : Oracle :=
  ⟨none, true, true, true, some ⟨[⟨⟨some "payload"⟩⟩]⟩,
   fun _ => some jsonOtherKey, fun _ _ => false⟩

/-- The payload string `{"qa_pairs":[{"question":"Q1","answer":"A1"}]}`. -/
def qaPayload : String :=
  "\x7b\"qa_pairs\":[\x7b\"question\":\"Q1\",\"answer\":\"A1\"\x7d]\x7d"

/-- The JSON value of `qaPayload`. -/
def jsonQaPairs : Json :=
  .obj [("qa_pairs", .arr [.obj [("question", .str "Q1"), ("answer", .str "A1")]])]

/-- A concrete oracle whose response carries `qaPayload`, parsed to
`jsonQaPairs`. -/
def oracleQaPairs : Oracle :=
  ⟨none, true, true, true, some ⟨[⟨⟨some qaPayload⟩⟩]⟩,
   fun _ => some jsonQaPairs, fun _ _ => false⟩

lemma split_eq_chunkLines (raw : String) :
    split_text_into_chunks raw = (chunkLines (rustLines raw.data)).1.map String.mk := rfl

lemma chunkStep_nonblank (acc : List (List Char) × List Char) (line : List Char)
    (hb : isBlank line = false) :
    chunkStep acc line = (acc.1, acc.2 ++ line ++ ['\n']) := by
  simp [chunkStep, hb]

lemma chunkStep_blank_flush (acc : List (List Char) × List Char) (line : List Char)
    (hb : isBlank line = true) (hc : isBlank acc.2 = false) :
    chunkStep acc line = (acc.1 ++ [acc.2], []) := by
  simp [chunkStep, hb, hc]

lemma chunkStep_blank_noflush (acc : List (List Char) × List Char) (line : List Char)
    (hb : isBlank line = true) (hc : isBlank acc.2 = true) :
    chunkStep acc line = acc := by
  simp [chunkStep, hb, hc]

/-- Folding the chunker over non-blank lines never emits a chunk: the
`res` component is unchanged. -/
lemma foldl_chunkStep_nonblank (tail : List (List Char))
    (h : ∀ l ∈ tail, isBlank l = false) :
    ∀ acc : List (List Char) × List Char, (tail.foldl chunkStep acc).1 = acc.1 := by
  induction tail with
  | nil => intro acc; rfl
  | cons l ls ih =>
    intro acc
    have hl : isBlank l = false := h l (List.mem_cons_self l ls)
    have hls : ∀ x ∈ ls, isBlank x = false := fun x hx => h x (List.mem_cons_of_mem l hx)
    rw [List.foldl_cons, chunkStep_nonblank acc l hl, ih hls]

/-- Every chunk the fold emits is non-blank, whatever the starting
accumulator is, provided its already-emitted chunks are non-blank. -/
lemma foldl_chunkStep_all_nonblank (ls : List (List Char)) :
    ∀ acc : List (List Char) × List Char, (∀ c ∈ acc.1, isBlank c = false) →
      ∀ c ∈ (ls.foldl chunkStep acc).1, isBlank c = false := by
  induction ls with
  | nil => intro acc h; exact h
  | cons l ls ih =>
    intro acc h
    rw [List.foldl_cons]
    by_cases hb : isBlank l
    · by_cases hc : isBlank acc.2
      · rw [chunkStep_blank_noflush acc l hb hc]
        exact ih acc h
      · rw [chunkStep_blank_flush acc l hb (Bool.not_eq_true _ ▸ hc)]
        refine ih _ ?_
        intro c hm
        rcases List.mem_append.mp hm with hm | hm
        · exact h c hm
        · have : c = acc.2 := by simpa using hm
          subst this
          exact Bool.not_eq_true _ ▸ hc
    · rw [chunkStep_nonblank acc l (Bool.not_eq_true _ ▸ hb)]
      exact ih _ h

/-- Claim C1: a trailing non-empty section at end-of-input that is not
followed by a blank line is never emitted: appending a suffix of
non-blank lines leaves the emitted chunk list unchanged; in particular
`split_text_into_chunks "A\nB\n\nC\n" = ["A\nB\n"]`, with the final
section `"C\n"` dropped. -/
theorem chunker_drops_trailing_section :
    (∀ pre tail : List (List Char), (∀ l ∈ tail, isBlank l = false) →
      (chunkLines (pre ++ tail)).1 = (chunkLines pre).1)
    ∧ split_text_into_chunks "A\nB\n\nC\n" = ["A\nB\n"] := by
  constructor
  · intro pre tail h
    unfold chunkLines
    rw [List.foldl_append]
    exact foldl_chunkStep_nonblank tail h _
  · decide

/-- Witness for claim C1 at concrete inputs: appending the non-blank
trailing line `C` changes nothing. -/
theorem chunker_drops_trailing_section_witness :
    (chunkLines ([['A'], []] ++ [['C']])).1 = (chunkLines [['A'], []]).1 :=
  chunker_drops_trailing_section.1 [['A'], []] [['C']] (by decide)

/-- Claim C2: no chunk produced by `split_text_into_chunks` is empty or
whitespace-only, and the empty input yields the empty sequence. -/
theorem chunker_no_blank_chunk :
    (∀ raw : String, ∀ c ∈ split_text_into_chunks raw, isBlankS c = false)
    ∧ split_text_into_chunks "" = [] := by
  constructor
  · intro raw c hc
    rw [split_eq_chunkLines] at hc
    rcases List.mem_map.mp hc with ⟨l, hl, hcl⟩
    have := foldl_chunkStep_all_nonblank (rustLines raw.data) ([], [])
      (by intro c hc; simp at hc) l hl
    subst hcl
    exact this
  · decide

/-- Witness for claim C2: the chunk `"A\n"` of input `"A\n\n"` is not
blank. -/
theorem chunker_no_blank_chunk_witness : isBlankS "A\n" = false :=
  chunker_no_blank_chunk.1 "A\n\n" "A\n" (by decide)

/-- Claim C3: when the completion-service call fails, `gen_pair` returns
`Ok(None)` (not an error), and the driver loop then just logs and
continues with the next chunk. -/
theorem gen_pair_service_failure (o : Oracle) (s : String)
    (h1 : o.sysMsgBuildOk = true) (h2 : o.userMsgBuildOk = true)
    (h3 : o.reqBuildOk = true) (h4 : o.chatResult = none) :
    gen_pair o s = .ok none ∧
    ∀ (rs : List GenResult) (st : DriverState),
      runHandler (gen_pair o s :: rs) st =
        runHandler rs { st with chunk_count := st.chunk_count + 1,
                                progressLogs := st.progressLogs + 1 } := by
  have hg : gen_pair o s = .ok none := by
    simp [gen_pair, h1, h2, h3, h4]
  refine ⟨hg, ?_⟩
  intro rs st
  rw [hg]
  simp [runHandler]

/-- Witness for claim C3 at a concrete oracle. -/
theorem gen_pair_service_failure_witness :
    gen_pair oracleServiceFail "x" = .ok none :=
  (gen_pair_service_failure oracleServiceFail "x" rfl rfl rfl rfl).1

/-- Counterexample to claim C4: with a first choice whose message content
is absent, `gen_pair` returns `Ok(Some([]))` — a successful result with
zero pairs — not the `Ok(None)` no-result signal the claim states. -/
theorem gen_pair_absent_content_counterexample :
    gen_pair oracleNoContent "x" = .ok (some []) ∧
    gen_pair oracleNoContent "x" ≠ .ok none := by
  decide

/-- Claim C4 amended: for every completion response whose first choice
has absent message content, `gen_pair` skips extraction and returns
`Ok(Some([]))`, a successful result with zero pairs — not the `Ok(None)`
signal used for service failures. -/
theorem gen_pair_absent_content (o : Oracle) (s : String) (rest : List ChatChoice)
    (h1 : o.sysMsgBuildOk = true) (h2 : o.userMsgBuildOk = true)
    (h3 : o.reqBuildOk = true) (h4 : o.chatResult = some ⟨⟨⟨none⟩⟩ :: rest⟩) :
    gen_pair o s = .ok (some []) := by
  simp [gen_pair, h1, h2, h3, h4]

/-- Witness for claim C4 (amended) at a concrete oracle. -/
theorem gen_pair_absent_content_witness :
    gen_pair oracleNoContent "y" = .ok (some []) :=
  gen_pair_absent_content oracleNoContent "y" [] rfl rfl rfl rfl

/-- Claim C5: a payload that fails to decode as a map from strings to
lists of question/answer objects yields `Ok(None)`; a payload that
decodes but has no "qa_pairs" key yields the successful empty pair list,
not an error. -/
theorem gen_pair_decode_outcomes (o : Oracle) (s payload : String) (rest : List ChatChoice)
    (h1 : o.sysMsgBuildOk = true) (h2 : o.userMsgBuildOk = true)
    (h3 : o.reqBuildOk = true)
    (h4 : o.chatResult = some ⟨⟨⟨some payload⟩⟩ :: rest⟩) :
    ((o.parseJson payload).bind decodeQaMap = none → gen_pair o s = .ok none) ∧
    (∀ m, (o.parseJson payload).bind decodeQaMap = some m →
      hashMapGet m "qa_pairs" = none → gen_pair o s = .ok (some [])) := by
  constructor
  · intro hd
    simp [gen_pair, h1, h2, h3, h4, hd]
  · intro m hd hq
    simp [gen_pair, h1, h2, h3, h4, hd, hq]

/-- Witness for claim C5: a payload decoding to `{"other_key":[]}` (no
"qa_pairs" key) yields the successful empty pair list. -/
theorem gen_pair_decode_outcomes_witness :
    gen_pair oracleOtherKey "x" = .ok (some []) :=
  (gen_pair_decode_outcomes oracleOtherKey "x" "payload" [] rfl rfl rfl rfl).2
    [("other_key", [])] (by decide) (by decide)

/-- Claim C6: with a decoded payload containing the "qa_pairs" key, the
entries are mapped to (question, answer) pairs preserving list order and
without deduplication; on the payload
`{"qa_pairs":[{"question":"Q1","answer":"A1"}]}` the result is exactly
`[("Q1", "A1")]`. -/
theorem gen_pair_extracts_in_order :
    (∀ (o : Oracle) (s payload : String) (rest : List ChatChoice)
      (m : List (String × List QaPair)) (qas : List QaPair),
      o.sysMsgBuildOk = true → o.userMsgBuildOk = true → o.reqBuildOk = true →
      o.chatResult = some ⟨⟨⟨some payload⟩⟩ :: rest⟩ →
      (o.parseJson payload).bind decodeQaMap = some m →
      hashMapGet m "qa_pairs" = some qas →
      gen_pair o s = .ok (some (qas.map (fun qa => (qa.question, qa.answer))))) ∧
    gen_pair oracleQaPairs "x" = .ok (some [("Q1", "A1")]) := by
  constructor
  · intro o s payload rest m qas h1 h2 h3 h4 hd hq
    simp [gen_pair, h1, h2, h3, h4, hd, hq]
  · decide

/-- Witness for claim C6 at the concrete payload. -/
theorem gen_pair_extracts_in_order_witness :
    gen_pair oracleQaPairs "y" = .ok (some [("Q1", "A1")]) :=
  gen_pair_extracts_in_order.1 oracleQaPairs "y" qaPayload []
    [("qa_pairs", [⟨"Q1", "A1"⟩])] [⟨"Q1", "A1"⟩] rfl rfl rfl rfl (by decide) (by decide)

/-- The driver loop without panics: `chunk_count` and the progress-log
count advance by one per result, and `count` by the number of extracted
pairs of each result. -/
lemma runHandler_no_panic (rs : List GenResult) (h : ∀ r ∈ rs, isPanic r = false) :
    ∀ st : DriverState,
      runHandler rs st = .inl ⟨st.count + (rs.map pairCount).sum,
                               st.chunk_count + rs.length,
                               st.progressLogs + rs.length⟩ := by
  induction rs with
  | nil => intro st; simp [runHandler]
  | cons r rs ih =>
    intro st
    have hrs : ∀ x ∈ rs, isPanic x = false := fun x hx => h x (List.mem_cons_of_mem r hx)
    cases r with
    | ok v =>
      cases v with
      | none =>
        rw [show runHandler (GenResult.ok none :: rs) st =
            runHandler rs { st with chunk_count := st.chunk_count + 1,
                                    progressLogs := st.progressLogs + 1 } from rfl,
          ih hrs]
        simp only [List.map_cons, List.sum_cons, pairCount, List.length_cons,
          Sum.inl.injEq, DriverState.mk.injEq]
        omega
      | some pairs =>
        rw [show runHandler (GenResult.ok (some pairs) :: rs) st =
            runHandler rs { st with count := st.count + pairs.length,
                                    chunk_count := st.chunk_count + 1,
                                    progressLogs := st.progressLogs + 1 } from rfl,
          ih hrs]
        simp only [List.map_cons, List.sum_cons, pairCount, List.length_cons,
          Sum.inl.injEq, DriverState.mk.injEq]
        omega
    | err =>
      rw [show runHandler (GenResult.err :: rs) st =
          runHandler rs { st with chunk_count := st.chunk_count + 1,
                                  progressLogs := st.progressLogs + 1 } from rfl,
        ih hrs]
      simp only [List.map_cons, List.sum_cons, pairCount, List.length_cons,
        Sum.inl.injEq, DriverState.mk.injEq]
      omega
    | panicked msg =>
      have : isPanic (GenResult.panicked msg) = false := h _ (List.mem_cons_self _ rs)
      simp [isPanic] at this

/-- Claim C7: with one oracle of external outcomes per chunk and no
panicking chunk, the driver attempts every chunk in order — the final
chunk counter equals the number of chunks, the pair counter is the sum of
the lengths of the successfully extracted pair lists, and one progress
log line is emitted per chunk; moreover `gen_pair`'s result, hence the
pair counter, does not depend on upload failures, whose outcome the
source discards. -/
theorem handler_attempts_all_chunks :
    (∀ (os : List Oracle) (chunks : List String),
      os.length = chunks.length →
      (∀ r ∈ List.zipWith gen_pair os chunks, isPanic r = false) →
      handler os chunks =
        .inl ⟨((List.zipWith gen_pair os chunks).map pairCount).sum,
              chunks.length, chunks.length⟩) ∧
    ∀ (o : Oracle) (f g : String → String → Bool) (s : String),
      gen_pair { o with uploadFails := f } s = gen_pair { o with uploadFails := g } s := by
  constructor
  · intro os chunks hlen hnp
    unfold handler
    rw [runHandler_no_panic _ hnp ⟨0, 0, 0⟩]
    simp [List.length_zipWith, hlen]
  · intro o f g s
    cases o
    rfl

/-- Witness for claim C7: three chunks, the second failing at the
service, give pair counter 2 and chunk counter 3. -/
theorem handler_attempts_all_chunks_witness :
    handler [oracleQaPairs, oracleServiceFail, oracleQaPairs] ["a", "b", "c"] =
      .inl ⟨2, 3, 3⟩ := by
  rw [handler_attempts_all_chunks.1
    [oracleQaPairs, oracleServiceFail, oracleQaPairs] ["a", "b", "c"] rfl (by decide)]
  decide

/-- Counterexample to claim C9: a failing system-message build makes
`gen_pair` panic through `expect`; it does not return an `Err` result. -/
theorem gen_pair_sys_build_panic_counterexample :
    gen_pair oracleSysFail "x" = .panicked "Failed to build system message" ∧
    gen_pair oracleSysFail "x" ≠ .err := by
  decide

/-- Claim C9 amended: a failing user-message build is propagated as an
`Err` result (the source applies `?`), which the driver logs before
continuing with the next chunk; a failing system-message build instead
panics through `expect`. -/
theorem gen_pair_build_failure (o : Oracle) (s : String) :
    (o.sysMsgBuildOk = true → o.userMsgBuildOk = false → gen_pair o s = .err) ∧
    (o.sysMsgBuildOk = false →
      gen_pair o s = .panicked "Failed to build system message") ∧
    ∀ (rs : List GenResult) (st : DriverState),
      runHandler (.err :: rs) st =
        runHandler rs { st with chunk_count := st.chunk_count + 1,
                                progressLogs := st.progressLogs + 1 } := by
  refine ⟨?_, ?_, ?_⟩
  · intro h1 h2
    simp [gen_pair, h1, h2]
  · intro h1
    simp [gen_pair, h1]
  · intro rs st
    simp [runHandler]

/-- Witness for claim C9 (amended) at a concrete oracle. -/
theorem gen_pair_build_failure_witness :
    gen_pair oracleUserFail "x" = .err :=
  (gen_pair_build_failure oracleUserFail "x").1 rfl rfl

/-- Claim C10: a successful completion response with an empty choices
list makes the unguarded `chat.choices[0]` of `gen_pair` index out of
bounds and panic, returning no result; with at least one choice the
index panic cannot occur. -/
theorem gen_pair_empty_choices_panic :
    (∀ (o : Oracle) (s : String),
      o.sysMsgBuildOk = true → o.userMsgBuildOk = true → o.reqBuildOk = true →
      o.chatResult = some ⟨[]⟩ →
      gen_pair o s = .panicked "index out of bounds") ∧
    ∀ (o : Oracle) (s : String) (choice : ChatChoice) (rest : List ChatChoice),
      o.chatResult = some ⟨choice :: rest⟩ →
      gen_pair o s ≠ .panicked "index out of bounds" := by
  constructor
  · intro o s h1 h2 h3 h4
    simp [gen_pair, h1, h2, h3, h4]
  · intro o s choice rest h4
    by_cases h1 : o.sysMsgBuildOk
    · by_cases h2 : o.userMsgBuildOk
      · by_cases h3 : o.reqBuildOk
        · cases hc : choice.message.content with
          | none => simp [gen_pair, h1, h2, h3, h4, hc]
          | some payload =>
            cases hd : (o.parseJson payload).bind decodeQaMap with
            | none => simp [gen_pair, h1, h2, h3, h4, hc, hd]
            | some m =>
              cases hq : hashMapGet m "qa_pairs" with
              | none => simp [gen_pair, h1, h2, h3, h4, hc, hd, hq]
              | some qas => simp [gen_pair, h1, h2, h3, h4, hc, hd, hq]
        · have hg : gen_pair o s = .err := by
            simp [gen_pair, h1, h2, h3]
          rw [hg]
          decide
      · have hg : gen_pair o s = .err := by
          simp [gen_pair, h1, h2]
        rw [hg]
        decide
    · have hg : gen_pair o s = .panicked "Failed to build system message" := by
        simp [gen_pair, h1]
      rw [hg]
      decide

/-- Witness for claim C10 at a concrete oracle with no choices. -/
theorem gen_pair_empty_choices_panic_witness :
    gen_pair oracleEmptyChoices "x" = .panicked "index out of bounds" :=
  gen_pair_empty_choices_panic.1 oracleEmptyChoices "x" rfl rfl rfl rfl

set_option maxRecDepth 100000 in
/-- Counterexample to claim C8: the schedule computed at a deployment on
June 5 at 03:10 fires at 03:12 on June 5, but at no instant of June 6 —
it does not recur daily, because the day-of-month and month fields are
fixed numbers. -/
theorem cron_not_daily_counterexample :
    firesOnDay (cron_spec_of 10 3 5 6) 5 6 ∧ ¬ firesOnDay (cron_spec_of 10 3 5 6) 6 6 := by
  constructor
  · exact ⟨12, by norm_num, 3, by norm_num, 0, by norm_num, by decide⟩
  · decide

/-- Claim C8 amended: the cron string's fields are minute + 2 (with no
wraparound past 59), hour, day-of-month and month, plus a `*`
day-of-week; every instant at which the schedule fires has exactly the
recorded minute, hour, day-of-month and month, so the schedule recurs
yearly on the deployment date, not daily. -/
theorem cron_schedule_fields (mi hr d mo : Nat) :
    get_cron_time_with_date mi hr d mo = renderCronSpec (cron_spec_of mi hr d mo) ∧
    ∀ t : CronTime, cronMatches (cron_spec_of mi hr d mo) t = true →
      t.minute = mi + 2 ∧ t.hour = hr ∧ t.dom = d ∧ t.month = mo := by
  constructor
  · rfl
  · intro t ht
    simp only [cronMatches, cron_spec_of, fieldMatches, Bool.and_eq_true,
      decide_eq_true_eq] at ht
    obtain ⟨⟨⟨⟨hm, hh⟩, hd⟩, hmo⟩, -⟩ := ht
    exact ⟨hm.symm, hh.symm, hd.symm, hmo.symm⟩

/-- Witness for claim C8 (amended): the rendering equation at a concrete
deployment time, and a concrete firing instant pinned to the deploy
month. -/
theorem cron_schedule_fields_witness :
    get_cron_time_with_date 10 3 5 6 = renderCronSpec (cron_spec_of 10 3 5 6) ∧
    (⟨12, 3, 5, 6, 0⟩ : CronTime).month = 6 :=
  ⟨(cron_schedule_fields 10 3 5 6).1,
   ((cron_schedule_fields 10 3 5 6).2 ⟨12, 3, 5, 6, 0⟩ (by decide)).2.2.2⟩

end GenPair
